import Mathlib

/-!
Verification of the autodocs automation bot (`main.py`, `github_client.py`,
`agents.py`, `file_counter.py`) against its natural-language specification.

The git-facing helpers of `github_client.py` are shallowly embedded over an
explicit model of the relevant git state: remote branch refs, local
remote-tracking refs (`origin/<b>`), local branches, the checked-out branch,
and the working tree.  Commits are opaque identifiers (`Nat`); `git pull` is
modelled in its fast-forward form (the remote tip replaces the current local
branch tip), which is the only form this protocol's call sites can exercise
because every `pull` in the source immediately follows a fetch and a hard
reset to the fetched tip.  Fallible git commands return `Option`.

The orchestrator `main` of `main.py` is embedded as a pure function from the
results of its external interactions (environment variables, the GitHub API
answers, the summary produced by the LLM step, the `git status` probe) to a
termination result plus the list of side-effecting operations it performed,
in order.
-/

namespace Autodocs

/-- Model of the git state visible to the helpers in `github_client.py`:
`remote` holds the branch refs on `origin` as seen by the remote server,
`tracking` holds the local remote-tracking refs `origin/<b>`, `branches` the
local branch refs, `head` the currently checked-out branch name, `worktree`
the commit whose content the working tree currently matches, and `dirty`
whether the working tree carries uncommitted modifications. -/
@[ext]
structure GitState where
  remote : String → Option Nat
  tracking : String → Option Nat
  branches : String → Option Nat
  head : String
  worktree : Nat
  dirty : Bool

/-- Model of `git fetch origin b` (`run_git(["fetch", "origin", b], cwd)`): fails when
the remote has no ref `b`; otherwise copies the remote tip into the local
remote-tracking ref `origin/b`. -/
def gitFetch (b : String) (s : GitState) : Option GitState :=
  match s.remote b with
  | none => none
  | some c => some { s with tracking := Function.update s.tracking b (some c) }

/-- Model of `git checkout b` (`run_git(["checkout", b], cwd)`): switch to local branch
`b`; when no local branch `b` exists, git creates one from the remote-tracking
ref `origin/b` when that exists (single-remote DWIM), and fails otherwise.
Uncommitted modifications are carried over. -/
def gitCheckout (b : String) (s : GitState) : Option GitState :=
  match s.branches b with
  | some c => some { s with head := b, worktree := c }
  | none =>
    match s.tracking b with
    | some c =>
      some { s with branches := Function.update s.branches b (some c),
                    head := b, worktree := c }
    | none => none

/-- Model of `git reset --hard origin/b` (`run_git(["reset", "--hard", f"origin/{b}"],
cwd)`): fails when `origin/b` does not resolve; otherwise moves the current
branch to that commit and makes the working tree match it exactly. -/
def gitResetHardToTracking (b : String) (s : GitState) : Option GitState :=
  match s.tracking b with
  | none => none
  | some c =>
    some { s with branches := Function.update s.branches s.head (some c),
                  worktree := c, dirty := false }

/-- Model of `git pull origin b` (`run_git(["pull", "origin", b], cwd)`): fetch `b`
then fast-forward the current branch to the fetched tip (see the module
comment: every call site runs this right after resetting the current branch
to `origin/b`, so the merge is always a trivial fast-forward). -/
def gitPull (b : String) (s : GitState) : Option GitState :=
  match s.remote b with
  | none => none
  | some c =>
    some { s with tracking := Function.update s.tracking b (some c),
                  branches := Function.update s.branches s.head (some c),
                  worktree := c, dirty := false }

/-- Model of `git checkout -B w origin/b` (`run_git(["checkout", "-B", w,
f"origin/{b}"], cwd)`): create local branch `w` at the commit of `origin/b`,
resetting it if it already exists, and switch to it.  Fails when `origin/b`
does not resolve. -/
def gitCheckoutB (w b : String) (s : GitState) : Option GitState :=
  match s.tracking b with
  | none => none
  | some c =>
    some { s with branches := Function.update s.branches w (some c),
                  head := w, worktree := c }

/-- Embedding of `checkout_work_branch(cwd, base_branch, work_branch)` from
`github_client.py`: fetch the base branch, check it out, hard-reset it to the
fetched remote tip, pull to confirm sync, then create-or-reset the work
branch at `origin/base` and check it out. -/
def checkout_work_branch (base work : String) (s : GitState) : Option GitState :=
  gitFetch base s >>= gitCheckout base >>= gitResetHardToTracking base >>=
    gitPull base >>= gitCheckoutB work base

/-- The local ref state `checkout_work_branch base work` converges to when the
remote tip of `base` is commit `c`. -/
def convergedState (s : GitState) (base work : String) (c : Nat) : GitState :=
  { remote := s.remote
    tracking := Function.update s.tracking base (some c)
    branches := Function.update (Function.update s.branches base (some c)) work (some c)
    head := work
    worktree := c
    dirty := false }

theorem checkout_work_branch_eq (s : GitState) (base work : String) (c : Nat)
    (h : s.remote base = some c) :
    checkout_work_branch base work s = some (convergedState s base work c) := by
  unfold checkout_work_branch gitFetch gitCheckout gitResetHardToTracking gitPull
    gitCheckoutB convergedState
  rw [h]
  cases hb : s.branches base <;>
    simp [hb, h, Function.update_same, Function.update_idem]

theorem checkout_work_branch_remote_none (s : GitState) (base work : String)
    (h : s.remote base = none) :
    checkout_work_branch base work s = none := by
  unfold checkout_work_branch gitFetch
  rw [h]
  rfl

theorem convergedState_fixed (s : GitState) (base work : String) (c : Nat) :
    convergedState (convergedState s base work c) base work c =
      convergedState s base work c := by
  unfold convergedState
  ext x
  · rfl
  · simp [Function.update_idem]
  · simp only [Function.update_apply]
    split_ifs <;> rfl
  · rfl
  · rfl
  · rfl

/-- C1: the work-branch convergence operation `checkout_work_branch` is
idempotent: whenever a run from state `s` succeeds and produces local state
`s2`, an immediately repeated run (no intervening remote change) succeeds and
produces exactly `s2` again — the second run is a no-op on the local ref
state. -/
theorem checkout_work_branch_idempotent (base work : String) (s s2 : GitState)
    (h : checkout_work_branch base work s = some s2) :
    checkout_work_branch base work s2 = some s2 := by
  cases hr : s.remote base with
  | none => rw [checkout_work_branch_remote_none s base work hr] at h; exact absurd h (by simp)
  | some c =>
    rw [checkout_work_branch_eq s base work c hr] at h
    have hs2 : s2 = convergedState s base work c := by
      exact (Option.some_injective _ h).symm
    subst hs2
    have hr2 : (convergedState s base work c).remote base = some c := hr
    rw [checkout_work_branch_eq _ base work c hr2, convergedState_fixed]

/-- Concrete witness for C1: a workspace whose remote `main` tip is commit 7,
with a stale local `main` at commit 3 and a dirty working tree. -/
def demoState : GitState :=
  { remote := fun b => if b = "main" then some 7 else none
    tracking := fun _ => none
    branches := fun b => if b = "main" then some 3 else none
    head := "main"
    worktree := 3
    dirty := true }

theorem checkout_work_branch_idempotent_witness :
    checkout_work_branch "main" "docs" demoState =
        some (convergedState demoState "main" "docs" 7) ∧
      checkout_work_branch "main" "docs"
          (convergedState demoState "main" "docs" 7) =
        some (convergedState demoState "main" "docs" 7) := by
  have h : checkout_work_branch "main" "docs" demoState =
      some (convergedState demoState "main" "docs" 7) :=
    checkout_work_branch_eq demoState "main" "docs" 7 rfl
  exact ⟨h, checkout_work_branch_idempotent "main" "docs" demoState _ h⟩

/-- The force mode a `git push` in `push_branch` is invoked with. -/
inductive PushMode where
  | force
  | forceWithLease
deriving DecidableEq, Repr

/-- Embedding of `push_branch(cwd, branch)` from `github_client.py`: first attempt to fetch
`branch` from `origin` to test whether it exists there; when the fetch
succeeds, push with `--force-with-lease`; when it fails (the branch does not
yet exist remotely), push with unconditional `--force`.  Returns the force
mode used together with the resulting state (the push publishes the local
branch ref to the remote and updates the tracking ref). -/
def push_branch (branch : String) (s : GitState) : PushMode × GitState :=
  match gitFetch branch s with
  | some s2 =>
    (PushMode.forceWithLease,
      { s2 with remote := Function.update s2.remote branch (s2.branches branch),
                tracking := Function.update s2.tracking branch (s2.branches branch) })
  | none =>
    (PushMode.force,
      { s with remote := Function.update s.remote branch (s.branches branch),
               tracking := Function.update s.tracking branch (s.branches branch) })

/-- C2: `push_branch` selects the push mode from remote existence, tested by
first attempting to fetch the branch: the lease-protected force-update is
used exactly when the pre-push fetch succeeds, the fetch succeeds exactly
when the branch already exists on the remote, and the unconditional force is
used exactly when the branch does not yet exist on the remote. -/
theorem push_branch_lease_selection (branch : String) (s : GitState) :
    ((push_branch branch s).1 = PushMode.forceWithLease ↔
        (gitFetch branch s).isSome = true) ∧
      ((gitFetch branch s).isSome = true ↔ (s.remote branch).isSome = true) ∧
      ((push_branch branch s).1 = PushMode.force ↔ s.remote branch = none) := by
  unfold push_branch gitFetch
  cases h : s.remote branch <;> simp [h]

/-- A failed git subprocess, as `run_git` raises it: `CalledProcessError`
carrying the captured stderr text. -/
structure GitCmdError where
  stderr : String

/-- Boolean substring containment over character lists: `pat` occurs as a
contiguous run inside `l`. -/
def listContainsRun (pat l : List Char) : Bool :=
  match l with
  | [] => pat.isEmpty
  | _ :: t => pat.isPrefixOf l || listContainsRun pat t

/-- The test `"dubious ownership" in stderr` from `is_git_repo`: substring
containment, expressed over the character lists of the two strings. -/
def isDubiousOwnership (e : GitCmdError) : Bool :=
  listContainsRun "dubious ownership".toList e.stderr.toList

/-- Outcomes of the external commands `is_git_repo` may run: the first
`rev-parse --is-inside-work-tree` probe, the `git config --global --add
safe.directory` remediation, and the retried probe (`none` = success). -/
structure ProbeEnv where
  firstProbe : Option GitCmdError
  configOk : Bool
  secondProbe : Option GitCmdError

/-- What a run of `is_git_repo` did: its boolean result, how many times the
`rev-parse` probe was run, and how many times the `safe.directory`
registration was run. -/
structure ProbeStats where
  result : Bool
  probeCalls : Nat
  configCalls : Nat
deriving DecidableEq, Repr

/-- Embedding of `is_git_repo(cwd)` from `github_client.py`: probe with `git rev-parse
--is-inside-work-tree`; on success return `True`.  On failure, when the
captured stderr contains "dubious ownership", register the path via `git
config --global --add safe.directory` and retry the probe exactly once,
returning the retried probe's success; every exception is caught, so any
other failure — the non-dubious first probe, a failed registration, or the
failed retried probe — yields `False` without further retries. -/
def is_git_repo (env : ProbeEnv) : ProbeStats :=
  match env.firstProbe with
  | none => ⟨true, 1, 0⟩
  | some e =>
    if isDubiousOwnership e then
      if env.configOk then
        match env.secondProbe with
        | none => ⟨true, 2, 1⟩
        | some _ => ⟨false, 2, 1⟩
      else ⟨false, 1, 1⟩
    else ⟨false, 1, 0⟩

/-- C7: when the first probe fails with the dubious-ownership failure mode
(and the remediation command itself succeeds), the path is registered as
trusted exactly once and the probe is retried exactly once, the result being
the retried probe's success; any other failure of the first probe gives
`False` with no registration and no retry; a failure of the retried probe
gives `False` with no further retries.  `is_git_repo` is total — it returns
a boolean in every case instead of propagating the error. -/
theorem is_git_repo_ownership_retry (env : ProbeEnv) :
    (∀ e, env.firstProbe = some e → isDubiousOwnership e = true →
        env.configOk = true →
        (is_git_repo env).configCalls = 1 ∧ (is_git_repo env).probeCalls = 2 ∧
          (is_git_repo env).result = (env.secondProbe).isNone) ∧
      (∀ e, env.firstProbe = some e → isDubiousOwnership e = false →
        is_git_repo env = ⟨false, 1, 0⟩) ∧
      (∀ e e2, env.firstProbe = some e → env.secondProbe = some e2 →
        (is_git_repo env).result = false) := by
  unfold is_git_repo
  cases h1 : env.firstProbe with
  | none => simp
  | some e =>
    cases hd : isDubiousOwnership e <;>
      cases hc : env.configOk <;>
        cases h2 : env.secondProbe <;>
          simp [hd, hc, h2]

theorem is_git_repo_ownership_retry_witness :
    (is_git_repo ⟨some ⟨"fatal: detected dubious ownership in repository"⟩,
        true, none⟩).configCalls = 1 ∧
      (is_git_repo ⟨some ⟨"fatal: detected dubious ownership in repository"⟩,
        true, none⟩).probeCalls = 2 ∧
      (is_git_repo ⟨some ⟨"fatal: detected dubious ownership in repository"⟩,
        true, none⟩).result = true := by
  have h := (is_git_repo_ownership_retry
      ⟨some ⟨"fatal: detected dubious ownership in repository"⟩, true, none⟩).1
    ⟨"fatal: detected dubious ownership in repository"⟩ rfl (by decide) rfl
  exact ⟨h.1, h.2.1, h.2.2⟩

/-- Python `s.startswith(pre)`, expressed over the character lists of the two
strings. -/
def strStartsWith (s pre : String) : Bool :=
  pre.toList.isPrefixOf s.toList

/-- The auth-scheme selection from `GitHubClient.__init__` in
`github_client.py`: tokens starting with `ghp_` or `github_pat_` (the
personal-access-token families) use the legacy `"token"` scheme, every other
token (GitHub App tokens) uses `"Bearer"`. -/
def authScheme (token : String) : String :=
  if strStartsWith token "ghp_" || strStartsWith token "github_pat_" then "token"
  else "Bearer"

/-- The `Authorization` header value `f"{auth_type} {token}"` installed on the
client session. -/
def authorizationHeader (token : String) : String :=
  authScheme token ++ " " ++ token

/-- C8: the forge client selects the authentication scheme by token prefix —
a token of either legacy personal-access-token family (`ghp_` or
`github_pat_`) gets the legacy `"token"` scheme in its Authorization header,
and every other (app-issued) token gets the `"Bearer"` scheme; both shapes
are handled by the same constructor. -/
theorem authScheme_by_token_shape (t : String) :
    (strStartsWith t "ghp_" = true ∨ strStartsWith t "github_pat_" = true →
        authScheme t = "token" ∧ authorizationHeader t = "token " ++ t) ∧
      (strStartsWith t "ghp_" = false ∧ strStartsWith t "github_pat_" = false →
        authScheme t = "Bearer" ∧ authorizationHeader t = "Bearer " ++ t) := by
  unfold authorizationHeader authScheme
  constructor
  · rintro (h | h) <;> simp [h]
  · rintro ⟨h1, h2⟩
    simp [h1, h2]

theorem authScheme_by_token_shape_witness :
    (authScheme "ghp_abc123" = "token" ∧
        authorizationHeader "ghp_abc123" = "token " ++ "ghp_abc123") ∧
      (authScheme "ghs_xyz789" = "Bearer" ∧
        authorizationHeader "ghs_xyz789" = "Bearer " ++ "ghs_xyz789") :=
  ⟨(authScheme_by_token_shape "ghp_abc123").1 (Or.inl (by decide)),
    (authScheme_by_token_shape "ghs_xyz789").2 ⟨by decide, by decide⟩⟩

/-- A completed `git status --porcelain` subprocess as `has_changes` runs it:
`stderr=subprocess.STDOUT` merges the error stream into `output`, and the
return code is captured but never inspected. -/
structure ProcResult where
  returncode : Int
  output : String

/-- Python `s.strip()`, expressed over the character list of the string:
drop whitespace from the front, then from the back. -/
def pyStrip (s : String) : List Char :=
  (((s.toList.dropWhile Char.isWhitespace).reverse.dropWhile
      Char.isWhitespace).reverse)

/-- Embedding of `has_changes(cwd)` from `github_client.py`: run `git status --porcelain`
with stderr merged into stdout and no `check=True`, and report
`bool(result.stdout.strip())` — true exactly when the combined output text is
nonempty after stripping whitespace.  The return code is never examined, so
the function never raises. -/
def has_changes (r : ProcResult) : Bool :=
  !(pyStrip r.output).isEmpty

theorem pyStrip_eq_nil_iff (s : String) :
    pyStrip s = [] ↔ ∀ c ∈ s.toList, c.isWhitespace = true := by
  unfold pyStrip
  rw [List.reverse_eq_nil_iff, List.dropWhile_eq_nil_iff]
  constructor
  · intro h c hc
    rcases List.mem_append.1
        ((List.takeWhile_append_dropWhile (p := Char.isWhitespace)
          (l := s.toList)) ▸ hc) with h1 | h1
    · exact List.mem_takeWhile_imp h1
    · exact h c (List.mem_reverse.2 h1)
  · intro h c hc
    exact h c
      (List.dropWhile_sublist (p := Char.isWhitespace) |>.mem
        (List.mem_reverse.1 hc))

/-- C10: `has_changes` is total and ignores the subprocess exit code — its
result depends only on the combined stdout-plus-stderr text, and it is
`true` exactly when that text contains a non-whitespace character; in
particular a failing git command that prints an error message makes
`has_changes` report pending changes. -/
theorem has_changes_ignores_returncode (rc rc2 : Int) (out : String) :
    has_changes ⟨rc, out⟩ = has_changes ⟨rc2, out⟩ ∧
      (has_changes ⟨rc, out⟩ = true ↔
        ∃ c ∈ out.toList, c.isWhitespace = false) ∧
      has_changes ⟨128, "fatal: not a git repository"⟩ = true := by
  refine ⟨rfl, ?_, by decide⟩
  unfold has_changes
  rw [Bool.not_eq_true', ← Bool.not_eq_true, List.isEmpty_iff,
    pyStrip_eq_nil_iff]
  push_neg
  constructor
  · rintro h
    rcases h with ⟨c, hc, hw⟩
    exact ⟨c, hc, by simpa using hw⟩
  · rintro ⟨c, hc, hw⟩
    exact ⟨c, hc, by simp [hw]⟩

/-- The fixed work-branch name `WORK_BRANCH` from `main.py`. -/
def WORK_BRANCH : String := "nemo_docs/summary-update"

/-- The fixed commit message `COMMIT_MSG` from `main.py`. -/
def COMMIT_MSG : String := "nemo_docs: update repository summary"

/-- The fixed pull-request title `PR_TITLE` from `main.py`. -/
def PR_TITLE : String := "nemo_docs: Update repository summary"

/-- The fixed pull-request body `PR_BODY` from `main.py`. -/
def PR_BODY : String :=
  "Automated summary of README.md using OpenAI.\n\nThis PR adds or updates `summary.txt` with a concise overview of the project."

/-- The names of the methods the class `GitHubClient` in `github_client.py`
defines (attribute lookup on an instance succeeds exactly for these). -/
def githubClientMethods : List String :=
  ["__init__", "_validate_token", "get_default_branch", "find_open_pr",
    "create_pr"]

/-- Outcomes of the external calls `create_summary` in `agents.py` would
perform: the README text its `get_file_content` call would return if that
method existed (`none` = the fetch raises), and the completion text the
OpenAI call returns (`none` = the call raises). -/
structure SummaryEnv where
  readmeContent : Option String
  completion : Option String

/-- Embedding of `create_summary(client, api_key, default_branch, base_url)` from
`agents.py`, parametrised by the method list of the client class it is
handed: it first calls `client.get_file_content(default_branch, "README.md")`
— when the class defines no such method the attribute lookup raises, the
surrounding `except Exception` catches, and `None` is returned; when the
fetch itself raises, `None` is returned; otherwise the README is sent to the
completion API and the reply is stripped and wrapped in the fixed Markdown
template, with `None` on a failed completion call. -/
def create_summary (methods : List String) (env : SummaryEnv) : Option String :=
  if "get_file_content" ∈ methods then
    match env.readmeContent with
    | none => none
    | some _ =>
      match env.completion with
      | none => none
      | some reply =>
        some ("# Automated Repository Summary\n\n" ++
          String.mk (pyStrip reply) ++
          "\n\n*This summary was automatically generated using OpenAI.*\n")
  else none

/-- One side-effecting operation of a `main` run, in `main.py` order: the
live default-branch lookup, the git setup steps, the artifact write, the
commit, the push, the PR search, and the PR creation. -/
inductive Event where
  | apiGetDefaultBranch
  | ensureRepo
  | configureUser (actor : String)
  | setRemote
  | checkoutWork (base work : String)
  | writeFile (path content : String)
  | commit (paths : List String) (msg : String)
  | push (branch : String)
  | findPr (head base : String)
  | createPr (title body head base : String)
deriving DecidableEq, Repr

/-- How a `main` run ends: `sys.exit(code)` or a normal return (process exit
code 0). -/
inductive MainResult where
  | exited (code : Nat)
  | done
deriving DecidableEq, Repr

/-- Python truthiness of an optional environment string: `os.getenv` yields
`None` when unset, and `if not value` also treats the empty string as
missing. -/
def strFalsy : Option String → Bool
  | none => true
  | some s => s.isEmpty

/-- Python `a or b` on optional strings (used for the token and LLM-key
fallbacks in `main.py`). -/
def pyOr (a b : Option String) : Option String :=
  if strFalsy a then b else a

/-- The results of the external interactions a `main` run consumes, in the
order `main.py` reads them: the workspace mount, the environment variables,
the API answer for the default branch, the value `create_summary` returned,
the `git status` probe after the write, and the PR-search answer (an
`html_url` when an open PR exists). -/
structure RunInput where
  workspaceExists : Bool
  inputToken : Option String
  envToken : Option String
  repoEnv : Option String
  actorEnv : Option String
  defaultBranchEnv : Option String
  apiDefaultBranch : String
  llmInputKey : Option String
  llmEnvKey : Option String
  summaryResult : Option String
  hasChangesResult : Bool
  existingPr : Option String

/-- Embedding of `main()` from `main.py` as a pure function from the external-interaction
results to the termination result and the ordered list of side-effecting
operations performed: exit 1 when the workspace mount, the token, or
`GITHUB_REPOSITORY` is missing; resolve the default branch (the
`DEFAULT_BRANCH` override wins over the live lookup); run the git setup and
work-branch convergence; return successfully before any write when the LLM
key is absent or `create_summary` returned a falsy value; write
`summary.txt`; return successfully when `has_changes` reports nothing;
commit the written path, push the work branch, search for an open PR and
reuse it when found, otherwise create one with the fixed title and body. -/
def mainRun (i : RunInput) : MainResult × List Event :=
  if !i.workspaceExists then (.exited 1, [])
  else
    let token := pyOr i.inputToken i.envToken
    if strFalsy token then (.exited 1, [])
    else if strFalsy i.repoEnv then (.exited 1, [])
    else
      let actor := i.actorEnv.getD "automation"
      let defaultBranch :=
        if strFalsy i.defaultBranchEnv then i.apiDefaultBranch
        else i.defaultBranchEnv.getD ""
      let ev0 : List Event :=
        if strFalsy i.defaultBranchEnv then [.apiGetDefaultBranch] else []
      let ev := ev0 ++
        [.ensureRepo, .configureUser actor, .setRemote,
          .checkoutWork defaultBranch WORK_BRANCH]
      if strFalsy (pyOr i.llmInputKey i.llmEnvKey) then (.done, ev)
      else
        match i.summaryResult with
        | none => (.done, ev)
        | some content =>
          if content.isEmpty then (.done, ev)
          else
            let ev := ev ++ [.writeFile "summary.txt" content]
            if !i.hasChangesResult then (.done, ev)
            else
              let ev := ev ++
                [.commit ["summary.txt"] COMMIT_MSG, .push WORK_BRANCH,
                  .findPr WORK_BRANCH defaultBranch]
              match i.existingPr with
              | some _ => (.done, ev)
              | none =>
                (.done, ev ++
                  [.createPr PR_TITLE PR_BODY WORK_BRANCH defaultBranch])

/-- Recognizer for commit events. -/
def isCommitEvent : Event → Bool
  | .commit _ _ => true
  | _ => false

/-- Recognizer for push events. -/
def isPushEvent : Event → Bool
  | .push _ => true
  | _ => false

/-- Recognizer for PR-search events. -/
def isFindPrEvent : Event → Bool
  | .findPr _ _ => true
  | _ => false

/-- Recognizer for PR-creation events. -/
def isCreatePrEvent : Event → Bool
  | .createPr _ _ _ _ => true
  | _ => false

/-- Recognizer for artifact-write events. -/
def isWriteEvent : Event → Bool
  | .writeFile _ _ => true
  | _ => false

/-- Recognizer for PR-creation events carrying a given title. -/
def isCreatePrTitled (title : String) : Event → Bool
  | .createPr t _ _ _ => t == title
  | _ => false

/-- Recognizer for writes to a given path. -/
def isWriteTo (path : String) : Event → Bool
  | .writeFile p _ => p == path
  | _ => false

/-- Recognizer for work-branch convergence events. -/
def isCheckoutWorkEvent : Event → Bool
  | .checkoutWork _ _ => true
  | _ => false

/-- C3: whenever a run reaches the artifact write and the written content is
byte-identical to what the workspace already held — the working tree shows no
staged or unstaged modification, i.e. the `git status` probe reports no
changes — the run terminates successfully and performs no commit, no push,
and no PR-search or PR-create call. -/
theorem noop_when_no_changes (i : RunInput) (c : String)
    (hw : i.workspaceExists = true)
    (ht : strFalsy (pyOr i.inputToken i.envToken) = false)
    (hr : strFalsy i.repoEnv = false)
    (hk : strFalsy (pyOr i.llmInputKey i.llmEnvKey) = false)
    (hs : i.summaryResult = some c)
    (hc : c.isEmpty = false)
    (hchg : i.hasChangesResult = false) :
    (mainRun i).1 = MainResult.done ∧
      (mainRun i).2.countP isCommitEvent = 0 ∧
      (mainRun i).2.countP isPushEvent = 0 ∧
      (mainRun i).2.countP isFindPrEvent = 0 ∧
      (mainRun i).2.countP isCreatePrEvent = 0 := by
  unfold mainRun
  cases hdb : strFalsy i.defaultBranchEnv <;>
    simp [hw, ht, hr, hk, hs, hc, hchg, hdb, List.countP_append,
      List.countP_cons, isCommitEvent, isPushEvent, isFindPrEvent,
      isCreatePrEvent]

/-- Concrete no-change run exercising `noop_when_no_changes`. -/
def noopInput : RunInput :=
  { workspaceExists := true, inputToken := some "tok", envToken := none,
    repoEnv := some "octo/repo", actorEnv := none,
    defaultBranchEnv := some "main", apiDefaultBranch := "main",
    llmInputKey := some "key", llmEnvKey := none,
    summaryResult := some "S", hasChangesResult := false,
    existingPr := none }

theorem noop_when_no_changes_witness :
    (mainRun noopInput).1 = MainResult.done ∧
      (mainRun noopInput).2.countP isCommitEvent = 0 ∧
      (mainRun noopInput).2.countP isPushEvent = 0 ∧
      (mainRun noopInput).2.countP isFindPrEvent = 0 ∧
      (mainRun noopInput).2.countP isCreatePrEvent = 0 :=
  noop_when_no_changes noopInput "S" rfl rfl rfl rfl rfl rfl rfl

/-- C4: a run that reaches the PR-search step and finds an already-open PR
for the (work-branch, base-branch) pair reuses it — it terminates
successfully with zero PR-creation calls; and every run whatsoever, whatever
its inputs, performs at most one PR-creation call. -/
theorem pr_reuse_and_at_most_one_create :
    (∀ (i : RunInput) (url c : String),
      i.workspaceExists = true →
      strFalsy (pyOr i.inputToken i.envToken) = false →
      strFalsy i.repoEnv = false →
      strFalsy (pyOr i.llmInputKey i.llmEnvKey) = false →
      i.summaryResult = some c → c.isEmpty = false →
      i.hasChangesResult = true → i.existingPr = some url →
      (mainRun i).1 = MainResult.done ∧
        (mainRun i).2.countP isCreatePrEvent = 0) ∧
      ∀ i : RunInput, (mainRun i).2.countP isCreatePrEvent ≤ 1 := by
  constructor
  · intro i url c hw ht hr hk hs hc hchg hpr
    unfold mainRun
    cases hdb : strFalsy i.defaultBranchEnv <;>
      simp [hw, ht, hr, hk, hs, hc, hchg, hpr, hdb, List.countP_append,
        List.countP_cons, isCreatePrEvent]
  · intro i
    unfold mainRun
    repeat' split
    all_goals
      cases ht : strFalsy (pyOr i.inputToken i.envToken) <;>
        simp [ht, List.countP_append, List.countP_cons, isCreatePrEvent]

/-- Concrete PR-reuse run exercising `pr_reuse_and_at_most_one_create`. -/
def reuseInput : RunInput :=
  { workspaceExists := true, inputToken := some "tok", envToken := none,
    repoEnv := some "octo/repo", actorEnv := none,
    defaultBranchEnv := some "main", apiDefaultBranch := "main",
    llmInputKey := some "key", llmEnvKey := none,
    summaryResult := some "S", hasChangesResult := true,
    existingPr := some "https://example.invalid/pr/1" }

theorem pr_reuse_and_at_most_one_create_witness :
    ((mainRun reuseInput).1 = MainResult.done ∧
        (mainRun reuseInput).2.countP isCreatePrEvent = 0) ∧
      (mainRun reuseInput).2.countP isCreatePrEvent ≤ 1 :=
  ⟨pr_reuse_and_at_most_one_create.1 reuseInput "https://example.invalid/pr/1"
      "S" rfl rfl rfl rfl rfl rfl rfl rfl,
    pr_reuse_and_at_most_one_create.2 reuseInput⟩

/-- C6: whenever artifact production fails or yields nothing —
`create_summary` returned a falsy value (`None` or an empty string) — a run
that reached the artifact step terminates successfully (a normal return,
process exit code 0) with no commit, no push, and no PR search or creation:
artifact-production failure is never fatal to the overall run. -/
theorem artifact_failure_nonfatal (i : RunInput)
    (hw : i.workspaceExists = true)
    (ht : strFalsy (pyOr i.inputToken i.envToken) = false)
    (hr : strFalsy i.repoEnv = false)
    (hk : strFalsy (pyOr i.llmInputKey i.llmEnvKey) = false)
    (hs : strFalsy i.summaryResult = true) :
    (mainRun i).1 = MainResult.done ∧
      (mainRun i).2.countP isCommitEvent = 0 ∧
      (mainRun i).2.countP isPushEvent = 0 ∧
      (mainRun i).2.countP isFindPrEvent = 0 ∧
      (mainRun i).2.countP isCreatePrEvent = 0 := by
  unfold mainRun
  cases hres : i.summaryResult with
  | none =>
    cases hdb : strFalsy i.defaultBranchEnv <;>
      simp [hw, ht, hr, hk, hres, hdb, List.countP_append, List.countP_cons,
        isCommitEvent, isPushEvent, isFindPrEvent, isCreatePrEvent]
  | some c =>
    have hce : c.isEmpty = true := by
      rw [hres] at hs; exact hs
    cases hdb : strFalsy i.defaultBranchEnv <;>
      simp [hw, ht, hr, hk, hres, hce, hdb, List.countP_append,
        List.countP_cons, isCommitEvent, isPushEvent, isFindPrEvent,
        isCreatePrEvent]

/-- Concrete failed-production run exercising `artifact_failure_nonfatal`. -/
def failedSummaryInput : RunInput :=
  { workspaceExists := true, inputToken := some "tok", envToken := none,
    repoEnv := some "octo/repo", actorEnv := none,
    defaultBranchEnv := some "main", apiDefaultBranch := "main",
    llmInputKey := some "key", llmEnvKey := none,
    summaryResult := none, hasChangesResult := true,
    existingPr := none }

theorem artifact_failure_nonfatal_witness :
    (mainRun failedSummaryInput).1 = MainResult.done ∧
      (mainRun failedSummaryInput).2.countP isCommitEvent = 0 ∧
      (mainRun failedSummaryInput).2.countP isPushEvent = 0 ∧
      (mainRun failedSummaryInput).2.countP isFindPrEvent = 0 ∧
      (mainRun failedSummaryInput).2.countP isCreatePrEvent = 0 :=
  artifact_failure_nonfatal failedSummaryInput rfl rfl rfl rfl rfl

/-- C5: the `GitHubClient` class of `github_client.py` defines no
`get_file_content` method, so the attribute access in `create_summary`
raises, the `except Exception` handler catches it, and `create_summary`
returns `None` for every input; consequently every run wired to this client
performs no artifact write, no commit, no push, and no PR search or
creation. -/
theorem create_summary_always_none :
    ("get_file_content" ∈ githubClientMethods → False) ∧
      (∀ env : SummaryEnv, create_summary githubClientMethods env = none) ∧
      ∀ i : RunInput, i.summaryResult = none →
        (mainRun i).2.countP isWriteEvent = 0 ∧
          (mainRun i).2.countP isCommitEvent = 0 ∧
          (mainRun i).2.countP isPushEvent = 0 ∧
          (mainRun i).2.countP isFindPrEvent = 0 ∧
          (mainRun i).2.countP isCreatePrEvent = 0 := by
  refine ⟨by decide, fun env => by simp [create_summary, githubClientMethods],
    fun i hres => ?_⟩
  unfold mainRun
  repeat' split
  all_goals
    cases ht : strFalsy (pyOr i.inputToken i.envToken) <;>
      simp_all [List.countP_append, List.countP_cons, isWriteEvent,
        isCommitEvent, isPushEvent, isFindPrEvent, isCreatePrEvent]

theorem create_summary_always_none_witness :
    create_summary githubClientMethods ⟨some "# readme", some "a summary"⟩ =
        none ∧
      (mainRun failedSummaryInput).2.countP isWriteEvent = 0 :=
  ⟨create_summary_always_none.2.1 ⟨some "# readme", some "a summary"⟩,
    (create_summary_always_none.2.2 failedSummaryInput rfl).1⟩

/-- The end-to-end scenario-A input: the workspace is mounted, token and
repository are supplied, an LLM key is present, `create_summary` produced
content, the working tree shows a change after the write, and no PR is open
yet. -/
def scenarioAInput : RunInput :=
  { workspaceExists := true, inputToken := some "tok", envToken := none,
    repoEnv := some "octo/repo", actorEnv := some "alice",
    defaultBranchEnv := some "main", apiDefaultBranch := "main",
    llmInputKey := some "key", llmEnvKey := none,
    summaryResult := some "S", hasChangesResult := true,
    existingPr := none }

/-- C9, counterexample: on the concrete scenario-A run `scenarioAInput`
(empty of prior branch/PR state, artifact produced, changes present) the run
succeeds and creates exactly one PR — but that PR is titled
`"nemo_docs: Update repository summary"`, not `"chore: Update file_count"`,
and the single file written is `summary.txt`, never a file named
`file_count`: the claim's artifact name and PR title do not match the
code. -/
theorem scenarioA_not_file_count :
    (mainRun scenarioAInput).1 = MainResult.done ∧
      (mainRun scenarioAInput).2.countP isCreatePrEvent = 1 ∧
      (mainRun scenarioAInput).2.countP
          (isCreatePrTitled "chore: Update file_count") = 0 ∧
      (mainRun scenarioAInput).2.countP
          (isCreatePrTitled "nemo_docs: Update repository summary") = 1 ∧
      (mainRun scenarioAInput).2.countP (isWriteTo "file_count") = 0 ∧
      (mainRun scenarioAInput).2.countP (isWriteTo "summary.txt") = 1 := by
  refine ⟨rfl, rfl, ?_, ?_, ?_, ?_⟩ <;> decide

/-- C9, amended: starting with no existing work branch or PR, a successful
run that produced summary content converges the work branch, writes exactly
one artifact — `summary.txt` holding the produced content — makes exactly
one commit, staging exactly that path with the fixed message, pushes the
work branch once, and opens exactly one pull request, titled
`"nemo_docs: Update repository summary"`. -/
theorem scenarioA_one_commit_one_pr (i : RunInput) (c : String)
    (hw : i.workspaceExists = true)
    (ht : strFalsy (pyOr i.inputToken i.envToken) = false)
    (hr : strFalsy i.repoEnv = false)
    (hk : strFalsy (pyOr i.llmInputKey i.llmEnvKey) = false)
    (hs : i.summaryResult = some c)
    (hc : c.isEmpty = false)
    (hchg : i.hasChangesResult = true)
    (hpr : i.existingPr = none) :
    (mainRun i).1 = MainResult.done ∧
      (mainRun i).2.countP isCheckoutWorkEvent = 1 ∧
      (mainRun i).2.countP isWriteEvent = 1 ∧
      Event.writeFile "summary.txt" c ∈ (mainRun i).2 ∧
      (mainRun i).2.countP isCommitEvent = 1 ∧
      Event.commit ["summary.txt"] COMMIT_MSG ∈ (mainRun i).2 ∧
      (mainRun i).2.countP isPushEvent = 1 ∧
      Event.push WORK_BRANCH ∈ (mainRun i).2 ∧
      (mainRun i).2.countP isCreatePrEvent = 1 ∧
      (mainRun i).2.countP (isCreatePrTitled PR_TITLE) = 1 := by
  unfold mainRun
  cases hdb : strFalsy i.defaultBranchEnv <;>
    simp [hw, ht, hr, hk, hs, hc, hchg, hpr, hdb, List.countP_append,
      List.countP_cons, isCheckoutWorkEvent, isWriteEvent, isCommitEvent,
      isPushEvent, isCreatePrEvent, isCreatePrTitled, PR_TITLE]

theorem scenarioA_one_commit_one_pr_witness :
    (mainRun scenarioAInput).1 = MainResult.done ∧
      (mainRun scenarioAInput).2.countP isCheckoutWorkEvent = 1 ∧
      (mainRun scenarioAInput).2.countP isWriteEvent = 1 ∧
      Event.writeFile "summary.txt" "S" ∈ (mainRun scenarioAInput).2 ∧
      (mainRun scenarioAInput).2.countP isCommitEvent = 1 ∧
      Event.commit ["summary.txt"] COMMIT_MSG ∈ (mainRun scenarioAInput).2 ∧
      (mainRun scenarioAInput).2.countP isPushEvent = 1 ∧
      Event.push WORK_BRANCH ∈ (mainRun scenarioAInput).2 ∧
      (mainRun scenarioAInput).2.countP isCreatePrEvent = 1 ∧
      (mainRun scenarioAInput).2.countP (isCreatePrTitled PR_TITLE) = 1 :=
  scenarioA_one_commit_one_pr scenarioAInput "S" rfl rfl rfl rfl rfl rfl rfl
    rfl

end Autodocs
